import Mathlib

/-!
Shallow embedding of the LISY hardware platform driver
(mpf/platforms/lisy/lisy.py) together with proofs about its protocol
behaviour: solenoid pulse-time reconfiguration, duration byte encoding,
the startup handshake (reset, identify, capacity queries, bulk switch
read), the poll cycle for changed switches, configuration-time
validation of lamp and display numbers, and the unsupported
hardware-rule stubs.

Transport writes are modelled as lists of emitted `Command` values;
device replies are modelled as explicit response data handed to the
functions that, in the Python source, read them from the stream.
-/

set_option maxRecDepth 8192

namespace LisySpec

/-- Command codes sent to the LISY hardware.  The numeric values live in
mpf/platforms/lisy/defines.py, which is not part of the sources here;
modelled from the spec: command codes are single bytes from a fixed
enumeration, and only their identity matters for the properties below. -/
inductive LisyDefines where
  | GeneralReset
  | InfoGetConnectedLisyHardware
  | InfoGetNumberOfLamps
  | InfoGetNumberOfSolenoids
  | InfoGetNumberOfDisplays
  | SwitchesGetStatusOfSwitch
  | SwitchesGetChangedSwitches
  | LampsSetLampOn
  | LampsSetLampOff
  | SolenoidsPulseSolenioid
  | SolenoidsSetSolenoidToOn
  | SolenoidsSetSolenoidToOff
  | SolenoidsSetSolenoidPulseTime
  deriving DecidableEq

/-- One transport write: a command code byte followed by its payload bytes
(`LisyHardwarePlatform.send_byte` in the source). -/
structure Command where
  code : LisyDefines
  payload : List Nat
  deriving DecidableEq

/-- Models `send_byte(cmd, byte)`: the write of one code byte plus payload. -/
def send_byte (cmd : LisyDefines) (byte : List Nat) : Command :=
  { code := cmd, payload := byte }

/-- State of a `LisyDriver` handle: solenoid address and the last
configured pulse duration (`self._pulse_ms`, initialised to -1). -/
structure LisyDriverState where
  number : Nat
  pulse_ms : Int
  deriving DecidableEq

/-- A freshly configured driver handle (`LisyDriver.__init__`): stored
pulse duration starts at -1. -/
def initLisyDriver (number : Nat) : LisyDriverState :=
  { number := number, pulse_ms := -1 }

/-- Models `LisyDriver._configure_pulse_ms`: if the requested duration
differs from the stored one, update the stored value and emit a
SolenoidsSetSolenoidPulseTime command whose payload is the solenoid
number followed by the two duration bytes `int(pulse_ms / 256)` and
`pulse_ms % 256` (for durations in the representable range,
`int(pulse_ms / 256)` is truncating division by 256). -/
def configure_pulse_ms (s : LisyDriverState) (pulse_ms : Nat) :
    LisyDriverState × List Command :=
  if (pulse_ms : Int) ≠ s.pulse_ms then
    ({ s with pulse_ms := (pulse_ms : Int) },
     [send_byte .SolenoidsSetSolenoidPulseTime
        [s.number, pulse_ms / 256, pulse_ms % 256]])
  else
    (s, [])

/-- Models `LisyDriver.pulse`: reconfigure the pulse time if needed, then
emit the pulse command with the solenoid address. -/
def pulse (s : LisyDriverState) (duration : Nat) :
    LisyDriverState × List Command :=
  ((configure_pulse_ms s duration).1,
   (configure_pulse_ms s duration).2 ++ [send_byte .SolenoidsPulseSolenioid [s.number]])

/-- Models `LisyDriver.enable`: reconfigure the pulse time if needed, then
emit the set-to-on command with the solenoid address. -/
def enable (s : LisyDriverState) (duration : Nat) :
    LisyDriverState × List Command :=
  ((configure_pulse_ms s duration).1,
   (configure_pulse_ms s duration).2 ++ [send_byte .SolenoidsSetSolenoidToOn [s.number]])

/-- Models `LisyDriver.disable`: emit the set-to-off command. -/
def disable (s : LisyDriverState) : LisyDriverState × List Command :=
  (s, [send_byte .SolenoidsSetSolenoidToOff [s.number]])

/-- One abstract call on a driver handle: either `pulse` or `enable`,
each carrying the requested pulse duration. -/
inductive DriverCall where
  | pulseCall (duration : Nat)
  | enableCall (duration : Nat)
  deriving DecidableEq

/-- Requested duration of a driver call. -/
def callDuration : DriverCall → Nat
  | .pulseCall d => d
  | .enableCall d => d

/-- Execute one driver call on a handle state. -/
def driverStep (s : LisyDriverState) : DriverCall → LisyDriverState × List Command
  | .pulseCall d => pulse s d
  | .enableCall d => enable s d

/-- Handle state after a sequence of pulse/enable calls. -/
def runCalls (s : LisyDriverState) : List DriverCall → LisyDriverState
  | [] => s
  | c :: rest => runCalls (driverStep s c).1 rest

/-- Models `_configure_pulse_ms` when the transport write raises: the
source assigns `self._pulse_ms = pulse_ms` on the line before it calls
`send_byte`, so the stored value is already updated when the write
fails and no command reaches the transport.  The `Except.error` result
stands for the exception propagating out of the write. -/
def configure_pulse_ms_failing_write (s : LisyDriverState) (pulse_ms : Nat) :
    LisyDriverState × Except String (List Command) :=
  if (pulse_ms : Int) ≠ s.pulse_ms then
    ({ s with pulse_ms := (pulse_ms : Int) }, .error "transport write raised")
  else
    (s, .ok [])

/-- Python dict assignment `d[k] = v` on an association list keyed by the
switch address: replace in place if the key exists, append otherwise. -/
def upsert (inputs : List (Nat × Bool)) (k : Nat) (v : Bool) : List (Nat × Bool) :=
  if inputs.any (fun p => p.1 == k) then
    inputs.map (fun p => if p.1 == k then (k, v) else p)
  else
    inputs ++ [(k, v)]

/-- Source of a switch event reported to the switch controller; the poll
loop always passes the platform object itself. -/
inductive SwitchEventSource where
  | lisyPlatform
  deriving DecidableEq

/-- One call to `switch_controller.process_switch_by_num(str(num), state, self)`. -/
structure SwitchEvent where
  address : String
  state : Nat
  source : SwitchEventSource
  deriving DecidableEq

/-- One cycle of `LisyHardwarePlatform._poll` after the status byte has
been read: status 127 means no change (the loop merely sleeps);
otherwise bit 7 is the new state, bits 0..6 the switch number, the
switch controller is notified and the cache is updated.  The
get-changed-switches query write and the 1 ms sleep carry no data and
are not modelled. -/
def poll_cycle (inputs : List (Nat × Bool)) (status : Nat) :
    List SwitchEvent × List (Nat × Bool) :=
  if status = 127 then
    ([], inputs)
  else
    ([{ address := toString (status &&& 127),
        state := if status &&& 128 ≠ 0 then 1 else 0,
        source := .lisyPlatform }],
     upsert inputs (status &&& 127) ((if status &&& 128 ≠ 0 then 1 else 0) == 1))

/-- Every address stored in the switch-state cache decodes to a column in
[0,7], i.e. address mod 10 is at most 7. -/
def cacheColsValid (inputs : List (Nat × Bool)) : Bool :=
  inputs.all (fun p => p.1 % 10 ≤ 7)

/-- Replies the device gives during the handshake: the reset return code,
the identify string, the three capacity bytes, and the per-address
reply byte for the bulk switch-status queries. -/
structure DeviceResponses where
  reset_code : Nat
  hardware_str : String
  lamp_count : Nat
  solenoid_count : Nat
  display_count : Nat
  switch_status : Nat → Nat

/-- Platform state reached by a successful handshake. -/
structure PlatformState where
  system_type : Nat
  number_of_lamps : Nat
  number_of_solenoids : Nat
  number_of_displays : Nat
  inputs : List (Nat × Bool)
  deriving DecidableEq

/-- The 64 switch addresses queried by the bulk read, in the row-major
order of the two nested `for` loops: `row * 10 + col` for rows 0..7 and
columns 0..7. -/
def switchAddresses : List Nat :=
  ((List.range 8).map (fun row => (List.range 8).map (fun col => row * 10 + col))).flatten

/-- The bulk switch read of the handshake: for each address send a
status query and read one byte; a byte greater than 1 aborts with an
error, otherwise the cache entry for the address is set to whether the
byte equals 1.  Returns the commands written (including those before a
failure) and either the final cache or the error. -/
def bulkSwitchRead (resp : Nat → Nat) :
    List Nat → List (Nat × Bool) → List Command × Except String (List (Nat × Bool))
  | [], inputs => ([], .ok inputs)
  | n :: rest, inputs =>
    if 1 < resp n then
      ([send_byte .SwitchesGetStatusOfSwitch [n]],
       .error ("Invalid switch " ++ toString n ++ ". Got response: " ++ toString (resp n)))
    else
      (send_byte .SwitchesGetStatusOfSwitch [n]
         :: (bulkSwitchRead resp rest (upsert inputs n (resp n == 1))).1,
       (bulkSwitchRead resp rest (upsert inputs n (resp n == 1))).2)

/-- Tail of the handshake after the hardware type is known: the three
capacity queries followed by the bulk switch read. -/
def initPlatformRest (r : DeviceResponses) (t : Nat) (cmds : List Command) :
    List Command × Except String PlatformState :=
  (cmds ++ [send_byte .InfoGetNumberOfLamps [], send_byte .InfoGetNumberOfSolenoids [],
            send_byte .InfoGetNumberOfDisplays []]
        ++ (bulkSwitchRead r.switch_status switchAddresses []).1,
   match (bulkSwitchRead r.switch_status switchAddresses []).2 with
   | .error e => .error e
   | .ok inputs =>
     .ok { system_type := t, number_of_lamps := r.lamp_count,
           number_of_solenoids := r.solenoid_count,
           number_of_displays := r.display_count, inputs := inputs })

/-- Models `LisyHardwarePlatform.initialize` from the reset command on:
reset must return 0, the identify string selects system type 1 for
LISY1 and 80 for LISY80 (anything else is fatal), then capacities are
read and the switch matrix is bulk-read.  Connection setup, config
validation, logging and the poll-task spawn are outside the protocol
and not modelled. -/
def initPlatform (r : DeviceResponses) : List Command × Except String PlatformState :=
  if r.reset_code ≠ 0 then
    ([send_byte .GeneralReset []],
     .error ("Reset of LISY failed. Got " ++ toString r.reset_code ++ " instead of 0"))
  else if r.hardware_str = "LISY1" then
    initPlatformRest r 1 [send_byte .GeneralReset [], send_byte .InfoGetConnectedLisyHardware []]
  else if r.hardware_str = "LISY80" then
    initPlatformRest r 80 [send_byte .GeneralReset [], send_byte .InfoGetConnectedLisyHardware []]
  else
    ([send_byte .GeneralReset [], send_byte .InfoGetConnectedLisyHardware []],
     .error ("Invalid LISY hardware version " ++ r.hardware_str))

/-- Models `LisyHardwarePlatform.configure_light`, translating the two
Python chained comparisons literally: on system 80 the check raised is
`0 < int(number) >= self._number_of_lamps`, i.e. `0 < number and
number >= lamps`; on other systems it is `1 < int(number) >
self._number_of_lamps`, i.e. `1 < number and number > lamps`.  A
successful call returns the lamp number of the handle it would build. -/
def configure_light (system_type : Nat) (number_of_lamps : Nat) (number : Int) :
    Except String Int :=
  if system_type = 80 then
    if 0 < number ∧ number ≥ (number_of_lamps : Int) then
      .error ("LISY only has " ++ toString number_of_lamps
        ++ " lamps. Cannot configure lamp " ++ toString number ++ " (zero indexed).")
    else
      .ok number
  else
    if 1 < number ∧ number > (number_of_lamps : Int) then
      .error ("LISY only has " ++ toString number_of_lamps
        ++ " lamps. Cannot configure lamp " ++ toString number ++ " (one indexed).")
    else
      .ok number

/-- Models `LisyHardwarePlatform.configure_segment_display`, translating
the chained comparison literally: the check raised is
`0 < int(number) >= self._number_of_displays`, i.e. `0 < number and
number >= displays`.  A successful call returns the display number of
the handle it would build.  Neither branch writes any command. -/
def configure_segment_display (number_of_displays : Nat) (number : Int) :
    Except String Int :=
  if 0 < number ∧ number ≥ (number_of_displays : Int) then
    .error ("Invalid display number " ++ toString number ++ ". Hardware only supports "
      ++ toString number_of_displays ++ " displays (indexed with 0)")
  else
    .ok number

/-- Modelled from the spec: the `SwitchSettings` argument record of the
hardware-rule operations (defined in mpf.core.platform, not among the
sources); the LISY stubs never inspect it, so only its existence
matters. -/
structure SwitchSettings where
  number : Nat
  deriving DecidableEq

/-- Modelled from the spec: the `DriverSettings` argument record of the
hardware-rule operations (defined in mpf.core.platform, not among the
sources); the LISY stubs never inspect it, so only its existence
matters. -/
structure DriverSettings where
  number : Nat
  deriving DecidableEq

/-- The error message every hardware-rule stub raises (kept with the
source's wording). -/
def hwRuleError : String := "Hardware rules are not support in LISY."

/-- Models `set_pulse_on_hit_and_enable_and_release_rule`: writes nothing
and raises unconditionally. -/
def set_pulse_on_hit_and_enable_and_release_rule
    (enable_switch : SwitchSettings) (coil : DriverSettings) :
    List Command × Except String Unit :=
  let _ := enable_switch
  let _ := coil
  ([], .error hwRuleError)

/-- Models `set_pulse_on_hit_and_enable_and_release_and_disable_rule`:
writes nothing and raises unconditionally. -/
def set_pulse_on_hit_and_enable_and_release_and_disable_rule
    (enable_switch : SwitchSettings) (disable_switch : SwitchSettings)
    (coil : DriverSettings) :
    List Command × Except String Unit :=
  let _ := enable_switch
  let _ := disable_switch
  let _ := coil
  ([], .error hwRuleError)

/-- Models `set_pulse_on_hit_and_release_rule`: writes nothing and raises
unconditionally. -/
def set_pulse_on_hit_and_release_rule
    (enable_switch : SwitchSettings) (coil : DriverSettings) :
    List Command × Except String Unit :=
  let _ := enable_switch
  let _ := coil
  ([], .error hwRuleError)

/-- Models `set_pulse_on_hit_rule`: writes nothing and raises
unconditionally. -/
def set_pulse_on_hit_rule
    (enable_switch : SwitchSettings) (coil : DriverSettings) :
    List Command × Except String Unit :=
  let _ := enable_switch
  let _ := coil
  ([], .error hwRuleError)

/-- Models `clear_hw_rule`: writes nothing and raises unconditionally. -/
def clear_hw_rule (switch : SwitchSettings) (coil : DriverSettings) :
    List Command × Except String Unit :=
  let _ := switch
  let _ := coil
  ([], .error hwRuleError)

/-- A well-behaved LISY1 device: reset succeeds, five lamps, three
solenoids, two displays, every switch open. -/
def goodLisy1 : DeviceResponses :=
  { reset_code := 0, hardware_str := "LISY1", lamp_count := 5,
    solenoid_count := 3, display_count := 2, switch_status := fun _ => 0 }

/-- A device whose identify string is neither LISY1 nor LISY80. -/
def unknownHardware : DeviceResponses :=
  { goodLisy1 with hardware_str := "LISY35" }

/-- A device that answers every switch-status query with 9 (not a valid
boolean byte). -/
def badSwitchDevice : DeviceResponses :=
  { goodLisy1 with switch_status := fun _ => 9 }

/-- One driver call emits a set-pulse-time command exactly when the
requested duration differs from the stored one, and always leaves the
stored value equal to the requested duration. -/
theorem driverStep_spec (s : LisyDriverState) (c : DriverCall) :
    ((driverStep s c).2.filter
        (fun cmd => cmd.code == LisyDefines.SolenoidsSetSolenoidPulseTime)).length
      = (if (callDuration c : Int) ≠ s.pulse_ms then 1 else 0)
    ∧ (driverStep s c).1.pulse_ms = (callDuration c : Int) := by
  cases c with
  | pulseCall d =>
    by_cases h : (d : Int) ≠ s.pulse_ms
    · simp [driverStep, pulse, configure_pulse_ms, send_byte, callDuration, h]
    · rw [not_not] at h
      simp [driverStep, pulse, configure_pulse_ms, send_byte, callDuration, h]
  | enableCall d =>
    by_cases h : (d : Int) ≠ s.pulse_ms
    · simp [driverStep, enable, configure_pulse_ms, send_byte, callDuration, h]
    · rw [not_not] at h
      simp [driverStep, enable, configure_pulse_ms, send_byte, callDuration, h]

/-- Claim C1: for every sequence of pulse/enable calls on a single
solenoid handle (whose stored duration starts at -1), the next call
writes a set-pulse-time command if and only if its requested duration
differs from the stored last-configured duration, and afterwards the
stored value equals the requested duration. -/
theorem lisy_C1 (number : Nat) (prev : List DriverCall) (c : DriverCall) :
    ((driverStep (runCalls (initLisyDriver number) prev) c).2.filter
        (fun cmd => cmd.code == LisyDefines.SolenoidsSetSolenoidPulseTime)).length
      = (if (callDuration c : Int) ≠ (runCalls (initLisyDriver number) prev).pulse_ms
         then 1 else 0)
    ∧ (driverStep (runCalls (initLisyDriver number) prev) c).1.pulse_ms
      = (callDuration c : Int) :=
  driverStep_spec (runCalls (initLisyDriver number) prev) c

/-- Claim C2: whenever a set-pulse-time command is sent for duration d,
its duration payload bytes are d div 256 and d mod 256 (following the
solenoid address byte), and recombining them as high * 256 + low
recovers d. -/
theorem lisy_C2 (s : LisyDriverState) (d : Nat) (h : (d : Int) ≠ s.pulse_ms) :
    (configure_pulse_ms s d).2
      = [send_byte LisyDefines.SolenoidsSetSolenoidPulseTime [s.number, d / 256, d % 256]]
    ∧ (d / 256) * 256 + d % 256 = d := by
  refine ⟨?_, ?_⟩
  · unfold configure_pulse_ms
    rw [if_pos h]
  · omega

/-- Witness for C2 at duration 1000 on a fresh handle: the duration
bytes are 3 and 232 and 3 * 256 + 232 = 1000. -/
theorem lisy_C2_witness :
    (configure_pulse_ms (initLisyDriver 0) 1000).2
      = [send_byte LisyDefines.SolenoidsSetSolenoidPulseTime [0, 3, 232]]
    ∧ 3 * 256 + 232 = 1000 := by
  have h := lisy_C2 (initLisyDriver 0) 1000 (by decide)
  exact ⟨h.1.trans (by decide), by decide⟩

/-- Claim C8: all four set_pulse_on_hit rule variants and clear_hw_rule
raise an explicit error for every argument and write no bytes. -/
theorem lisy_C8 :
    ∀ (es ds : SwitchSettings) (c : DriverSettings),
      set_pulse_on_hit_and_enable_and_release_rule es c = ([], .error hwRuleError)
    ∧ set_pulse_on_hit_and_enable_and_release_and_disable_rule es ds c
        = ([], .error hwRuleError)
    ∧ set_pulse_on_hit_and_release_rule es c = ([], .error hwRuleError)
    ∧ set_pulse_on_hit_rule es c = ([], .error hwRuleError)
    ∧ clear_hw_rule es c = ([], .error hwRuleError) := by
  intro es ds c
  exact ⟨rfl, rfl, rfl, rfl, rfl⟩

/-- Claim C10: the stored duration is assigned before the transport
write, so when the write raises on a changed duration d, the handle
already stores d, no command was delivered, and a subsequent
reconfiguration with the same d sends nothing. -/
theorem lisy_C10 (s : LisyDriverState) (d : Nat) (h : (d : Int) ≠ s.pulse_ms) :
    (configure_pulse_ms_failing_write s d).1.pulse_ms = (d : Int)
    ∧ (configure_pulse_ms_failing_write s d).2 = .error "transport write raised"
    ∧ configure_pulse_ms (configure_pulse_ms_failing_write s d).1 d
        = ((configure_pulse_ms_failing_write s d).1, []) := by
  unfold configure_pulse_ms_failing_write
  rw [if_pos h]
  refine ⟨rfl, rfl, ?_⟩
  unfold configure_pulse_ms
  rw [if_neg (by simp)]

/-- Witness for C10: a fresh handle (stored duration -1) whose write of
duration 10 raises ends up storing 10, and reconfiguring with 10
afterwards sends nothing. -/
theorem lisy_C10_witness :
    (configure_pulse_ms_failing_write (initLisyDriver 3) 10).1.pulse_ms = (10 : Int)
    ∧ (configure_pulse_ms_failing_write (initLisyDriver 3) 10).2
        = .error "transport write raised"
    ∧ configure_pulse_ms (configure_pulse_ms_failing_write (initLisyDriver 3) 10).1 10
        = ((configure_pulse_ms_failing_write (initLisyDriver 3) 10).1, []) :=
  lisy_C10 (initLisyDriver 3) 10 (by decide)

/-- Upserting a key that is not yet present appends the new entry. -/
theorem upsert_not_mem (inputs : List (Nat × Bool)) (k : Nat) (v : Bool)
    (h : k ∉ inputs.map Prod.fst) :
    upsert inputs k v = inputs ++ [(k, v)] := by
  unfold upsert
  rw [if_neg]
  simp only [List.any_eq_true, beq_iff_eq, not_exists, not_and]
  intro p hp hpk
  exact h (List.mem_map.2 ⟨p, hp, hpk⟩)

/-- Bulk switch read over pairwise distinct, fresh addresses whose
response bytes are all at most 1: it writes one status query per
address in order and extends the cache with one boolean entry per
address. -/
theorem bulkSwitchRead_ok (resp : Nat → Nat) :
    ∀ (addrs : List Nat) (acc : List (Nat × Bool)),
      (∀ a ∈ addrs, resp a ≤ 1) → (∀ a ∈ addrs, a ∉ acc.map Prod.fst) → addrs.Nodup →
      bulkSwitchRead resp addrs acc
        = (addrs.map (fun n => send_byte .SwitchesGetStatusOfSwitch [n]),
           .ok (acc ++ addrs.map (fun n => (n, resp n == 1)))) := by
  intro addrs
  induction addrs with
  | nil =>
    intro acc _ _ _
    simp [bulkSwitchRead]
  | cons n rest ih =>
    intro acc hle hfresh hnd
    have hn : ¬ 1 < resp n := by
      have := hle n (by simp)
      omega
    have hup : upsert acc n (resp n == 1) = acc ++ [(n, resp n == 1)] :=
      upsert_not_mem acc n _ (hfresh n (by simp))
    have hrest : bulkSwitchRead resp rest (acc ++ [(n, resp n == 1)])
        = (rest.map (fun m => send_byte .SwitchesGetStatusOfSwitch [m]),
           .ok ((acc ++ [(n, resp n == 1)]) ++ rest.map (fun m => (m, resp m == 1)))) := by
      refine ih (acc ++ [(n, resp n == 1)]) (fun a ha => hle a (by simp [ha])) ?_ ?_
      · intro a ha
        simp only [List.map_append, List.mem_append, List.map_cons, List.map_nil,
          List.mem_singleton, not_or]
        refine ⟨fun hmem => hfresh a (by simp [ha]) hmem, ?_⟩
        intro hEq
        rw [List.nodup_cons] at hnd
        exact hnd.1 (hEq ▸ ha)
      · exact (List.nodup_cons.1 hnd).2
    unfold bulkSwitchRead
    rw [if_neg hn, hup, hrest]
    simp

/-- Bulk switch read aborts with an error as soon as some queried
address answers with a byte greater than 1. -/
theorem bulkSwitchRead_error (resp : Nat → Nat) :
    ∀ (addrs : List Nat) (acc : List (Nat × Bool)),
      (∃ a ∈ addrs, 1 < resp a) →
      ∃ e, (bulkSwitchRead resp addrs acc).2 = .error e := by
  intro addrs
  induction addrs with
  | nil =>
    intro acc h
    simp at h
  | cons n rest ih =>
    intro acc h
    by_cases hn : 1 < resp n
    · refine ⟨"Invalid switch " ++ toString n ++ ". Got response: " ++ toString (resp n), ?_⟩
      unfold bulkSwitchRead
      rw [if_pos hn]
    · have hrest : ∃ a ∈ rest, 1 < resp a := by
        obtain ⟨a, ha, hra⟩ := h
        rcases List.mem_cons.1 ha with hEq | hmem
        · exact absurd (hEq ▸ hra) hn
        · exact ⟨a, hmem, hra⟩
      obtain ⟨e, he⟩ := ih (upsert acc n (resp n == 1)) hrest
      refine ⟨e, ?_⟩
      unfold bulkSwitchRead
      rw [if_neg hn]
      exact he

/-- There are 64 bulk-read addresses, with no duplicates, each with
column digit at most 7. -/
theorem switchAddresses_facts :
    switchAddresses.length = 64 ∧ switchAddresses.Nodup
    ∧ ∀ a ∈ switchAddresses, a % 10 ≤ 7 := by
  refine ⟨by decide, by decide, by decide⟩

/-- Handshake tail on an all-boolean switch matrix: capacities are
copied and the bulk read fills the cache in address order. -/
theorem initPlatformRest_ok (r : DeviceResponses) (t : Nat) (cmds : List Command)
    (hle : ∀ a ∈ switchAddresses, r.switch_status a ≤ 1) :
    initPlatformRest r t cmds
      = (cmds ++ [send_byte .InfoGetNumberOfLamps [], send_byte .InfoGetNumberOfSolenoids [],
                  send_byte .InfoGetNumberOfDisplays []]
             ++ switchAddresses.map (fun n => send_byte .SwitchesGetStatusOfSwitch [n]),
         .ok { system_type := t, number_of_lamps := r.lamp_count,
               number_of_solenoids := r.solenoid_count,
               number_of_displays := r.display_count,
               inputs := switchAddresses.map (fun n => (n, r.switch_status n == 1)) }) := by
  have h := bulkSwitchRead_ok r.switch_status switchAddresses [] hle (by simp)
    switchAddresses_facts.2.1
  unfold initPlatformRest
  rw [h]
  simp

/-- Handshake tail aborts when some switch answers a non-boolean byte. -/
theorem initPlatformRest_error (r : DeviceResponses) (t : Nat) (cmds : List Command)
    (h : ∃ a ∈ switchAddresses, 1 < r.switch_status a) :
    ∃ e, (initPlatformRest r t cmds).2 = .error e := by
  obtain ⟨e, he⟩ := bulkSwitchRead_error r.switch_status switchAddresses [] h
  refine ⟨e, ?_⟩
  unfold initPlatformRest
  simp only [he]

/-- Claim C3: with the reset step passed, the identify response LISY1
yields hardware type 1, LISY80 yields type 80, and any other identify
string makes the whole handshake fail with an error. -/
theorem lisy_C3 (r : DeviceResponses) (h0 : r.reset_code = 0)
    (hsw : ∀ a ∈ switchAddresses, r.switch_status a ≤ 1) :
    (r.hardware_str = "LISY1" →
       ∃ st, (initPlatform r).2 = .ok st ∧ st.system_type = 1)
    ∧ (r.hardware_str = "LISY80" →
       ∃ st, (initPlatform r).2 = .ok st ∧ st.system_type = 80)
    ∧ (r.hardware_str ≠ "LISY1" → r.hardware_str ≠ "LISY80" →
       ∃ e, (initPlatform r).2 = .error e) := by
  refine ⟨?_, ?_, ?_⟩
  · intro h1
    unfold initPlatform
    rw [if_neg (by simp [h0]), if_pos h1, initPlatformRest_ok r 1 _ hsw]
    exact ⟨_, rfl, rfl⟩
  · intro h80
    have h1 : ¬ r.hardware_str = "LISY1" := by
      rw [h80]; decide
    unfold initPlatform
    rw [if_neg (by simp [h0]), if_neg h1, if_pos h80, initPlatformRest_ok r 80 _ hsw]
    exact ⟨_, rfl, rfl⟩
  · intro h1 h80
    unfold initPlatform
    rw [if_neg (by simp [h0]), if_neg h1, if_neg h80]
    exact ⟨_, rfl⟩

/-- Witness for C3: a LISY1 device with clean responses initialises to
type 1, and a device identifying as LISY35 makes the handshake fail. -/
theorem lisy_C3_witness :
    (∃ st, (initPlatform goodLisy1).2 = .ok st ∧ st.system_type = 1)
    ∧ (∃ e, (initPlatform unknownHardware).2 = .error e) :=
  ⟨(lisy_C3 goodLisy1 rfl (by decide)).1 rfl,
   (lisy_C3 unknownHardware rfl (by decide)).2.2 (by decide) (by decide)⟩

/-- Looking up a key of a map-built association list yields the mapped
value of the first occurrence of the key. -/
theorem lookup_map_of_mem (f : Nat → Bool) :
    ∀ (l : List Nat) (a : Nat), a ∈ l →
      List.lookup a (l.map (fun n => (n, f n))) = some (f a) := by
  intro l
  induction l with
  | nil =>
    intro a h
    simp at h
  | cons b rest ih =>
    intro a h
    by_cases hab : a = b
    · subst hab
      simp [List.lookup]
    · have hmem : a ∈ rest := by
        rcases List.mem_cons.1 h with hEq | hm
        · exact absurd hEq hab
        · exact hm
      have hbeq : (a == b) = false := beq_false_of_ne hab
      simp [List.lookup, hbeq, ih a hmem]

/-- Each pair of a row below 8 and a column below 8 produces an address
among the bulk-read addresses. -/
theorem rowcol_mem_switchAddresses :
    ∀ row < 8, ∀ col < 8, row * 10 + col ∈ switchAddresses := by
  decide

/-- Handshake tail after identify: its status queries are exactly one
per bulk-read address, in order, and the resulting cache maps each
address to whether its response byte equals 1. -/
theorem initPlatformRest_queries (r : DeviceResponses) (t : Nat)
    (hle : ∀ a ∈ switchAddresses, r.switch_status a ≤ 1) :
    ((initPlatformRest r t [send_byte .GeneralReset [],
        send_byte .InfoGetConnectedLisyHardware []]).1.filter
          (fun c => c.code == LisyDefines.SwitchesGetStatusOfSwitch))
        = switchAddresses.map (fun n => send_byte .SwitchesGetStatusOfSwitch [n])
    ∧ (∃ st, (initPlatformRest r t [send_byte .GeneralReset [],
          send_byte .InfoGetConnectedLisyHardware []]).2 = .ok st
        ∧ st.inputs.length = 64
        ∧ ∀ row < 8, ∀ col < 8,
            List.lookup (row * 10 + col) st.inputs
              = some (r.switch_status (row * 10 + col) == 1)) := by
  rw [initPlatformRest_ok r t _ hle]
  refine ⟨by dsimp only; decide, ⟨_, rfl, ?_, ?_⟩⟩
  · show (switchAddresses.map (fun n => (n, r.switch_status n == 1))).length = 64
    simp [switchAddresses_facts.1]
  · intro row hr col hc
    exact lookup_map_of_mem (fun n => r.switch_status n == 1) switchAddresses _
      (rowcol_mem_switchAddresses row hr col hc)

/-- Claim C7: the bulk switch read queries exactly the 64 addresses
row*10+col (rows and columns 0..7) in row-major order; when every
response byte is 0 or 1 the cache ends up with exactly 64 entries,
each address mapping to whether its byte equals 1; and any response
byte greater than 1 makes the whole handshake fail. -/
theorem lisy_C7 (r : DeviceResponses) (h0 : r.reset_code = 0)
    (ht : r.hardware_str = "LISY1" ∨ r.hardware_str = "LISY80") :
    ((∀ a ∈ switchAddresses, r.switch_status a ≤ 1) →
       ((initPlatform r).1.filter (fun c => c.code == LisyDefines.SwitchesGetStatusOfSwitch)
           = switchAddresses.map (fun n => send_byte .SwitchesGetStatusOfSwitch [n])
        ∧ switchAddresses
           = [0, 1, 2, 3, 4, 5, 6, 7, 10, 11, 12, 13, 14, 15, 16, 17,
              20, 21, 22, 23, 24, 25, 26, 27, 30, 31, 32, 33, 34, 35, 36, 37,
              40, 41, 42, 43, 44, 45, 46, 47, 50, 51, 52, 53, 54, 55, 56, 57,
              60, 61, 62, 63, 64, 65, 66, 67, 70, 71, 72, 73, 74, 75, 76, 77]
        ∧ ∃ st, (initPlatform r).2 = .ok st
            ∧ st.inputs.length = 64
            ∧ ∀ row < 8, ∀ col < 8,
                List.lookup (row * 10 + col) st.inputs
                  = some (r.switch_status (row * 10 + col) == 1)))
    ∧ ((∃ a ∈ switchAddresses, 1 < r.switch_status a) →
        ∃ e, (initPlatform r).2 = .error e) := by
  have hbr : ∃ t, initPlatform r
      = initPlatformRest r t [send_byte .GeneralReset [],
          send_byte .InfoGetConnectedLisyHardware []] := by
    rcases ht with h1 | h80
    · refine ⟨1, ?_⟩
      unfold initPlatform
      rw [if_neg (by simp [h0]), if_pos h1]
    · refine ⟨80, ?_⟩
      have h1 : ¬ r.hardware_str = "LISY1" := by
        rw [h80]; decide
      unfold initPlatform
      rw [if_neg (by simp [h0]), if_neg h1, if_pos h80]
  obtain ⟨t, hbr⟩ := hbr
  rw [hbr]
  constructor
  · intro hle
    exact ⟨(initPlatformRest_queries r t hle).1, by decide,
      (initPlatformRest_queries r t hle).2⟩
  · intro hex
    exact initPlatformRest_error r t _ hex

/-- Witness for C7: a clean LISY1 device yields exactly the 64 ordered
queries and a 64-entry cache, and a device answering 9 to a status
query makes the handshake fail. -/
theorem lisy_C7_witness :
    ((initPlatform goodLisy1).1.filter
          (fun c => c.code == LisyDefines.SwitchesGetStatusOfSwitch)
        = switchAddresses.map (fun n => send_byte .SwitchesGetStatusOfSwitch [n])
     ∧ switchAddresses
        = [0, 1, 2, 3, 4, 5, 6, 7, 10, 11, 12, 13, 14, 15, 16, 17,
           20, 21, 22, 23, 24, 25, 26, 27, 30, 31, 32, 33, 34, 35, 36, 37,
           40, 41, 42, 43, 44, 45, 46, 47, 50, 51, 52, 53, 54, 55, 56, 57,
           60, 61, 62, 63, 64, 65, 66, 67, 70, 71, 72, 73, 74, 75, 76, 77]
     ∧ ∃ st, (initPlatform goodLisy1).2 = .ok st
         ∧ st.inputs.length = 64
         ∧ ∀ row < 8, ∀ col < 8,
             List.lookup (row * 10 + col) st.inputs
               = some (goodLisy1.switch_status (row * 10 + col) == 1))
    ∧ (∃ e, (initPlatform badSwitchDevice).2 = .error e) :=
  ⟨(lisy_C7 goodLisy1 rfl (Or.inl rfl)).1 (by decide),
   (lisy_C7 badSwitchDevice rfl (Or.inl rfl)).2 ⟨0, by decide, by decide⟩⟩

/-- For status bytes, testing bit 7 with a mask agrees with shifting it
down: the state the poll loop computes equals (status >>> 7) &&& 1. -/
theorem pollStateBit :
    ∀ status : Nat, status < 256 →
      (if status &&& 128 ≠ 0 then (1 : Nat) else 0) = (status >>> 7) &&& 1 := by
  decide

/-- Claim C6: a poll cycle that reads status byte 127 emits no event and
leaves the cache unchanged; any other status byte b notifies the
switch controller of address b &&& 127 (as a decimal string) with
state (b >>> 7) &&& 1 and the platform itself as source, and updates
the cache entry of that address to that state. -/
theorem lisy_C6 (inputs : List (Nat × Bool)) (status : Nat) (h : status < 256) :
    (status = 127 → poll_cycle inputs status = ([], inputs))
    ∧ (status ≠ 127 →
        poll_cycle inputs status
          = ([{ address := toString (status &&& 127), state := (status >>> 7) &&& 1,
                source := .lisyPlatform }],
             upsert inputs (status &&& 127) (((status >>> 7) &&& 1) == 1))) := by
  constructor
  · intro h127
    subst h127
    rfl
  · intro hne
    have hb := pollStateBit status h
    unfold poll_cycle
    rw [if_neg hne, hb]

/-- Witness for C6: status byte 133 emits the event (address "5", state
active) and caches switch 5 as closed; status byte 127 emits nothing
and leaves the cache alone. -/
theorem lisy_C6_witness :
    poll_cycle [] 133
      = ([{ address := "5", state := 1, source := .lisyPlatform }], [(5, true)])
    ∧ poll_cycle [(3, false)] 127 = ([], [(3, false)]) := by
  have h1 := (lisy_C6 [] 133 (by decide)).2 (by decide)
  have h2 := (lisy_C6 [(3, false)] 127 (by decide)).1 rfl
  exact ⟨h1.trans (by decide), h2⟩

/-- Membership after an upsert: the element was already present or
carries the upserted key. -/
theorem mem_upsert (inputs : List (Nat × Bool)) (k : Nat) (v : Bool) (p : Nat × Bool)
    (hp : p ∈ upsert inputs k v) : p ∈ inputs ∨ p.1 = k := by
  unfold upsert at hp
  split at hp
  · rcases List.mem_map.1 hp with ⟨q, hq, hfq⟩
    by_cases hqk : (q.1 == k) = true
    · rw [if_pos hqk] at hfq
      right
      rw [← hfq]
    · rw [if_neg hqk] at hfq
      left
      rw [← hfq]
      exact hq
  · rcases List.mem_append.1 hp with h1 | h1
    · left
      exact h1
    · right
      rw [List.mem_singleton.1 h1]

/-- Upserting a key with a valid column preserves column validity of the
cache. -/
theorem cacheColsValid_upsert (inputs : List (Nat × Bool)) (k : Nat) (v : Bool)
    (h : cacheColsValid inputs = true) (hk : k % 10 ≤ 7) :
    cacheColsValid (upsert inputs k v) = true := by
  unfold cacheColsValid at h ⊢
  rw [List.all_eq_true] at h ⊢
  intro p hp
  rcases mem_upsert inputs k v p hp with hmem | hk1
  · exact h p hmem
  · simp only [decide_eq_true_eq]
    rw [hk1]
    exact hk

/-- A cache produced by a successful handshake tail has only bulk-read
addresses as keys, hence valid columns. -/
theorem initPlatformRest_cache_valid (r : DeviceResponses) (t : Nat) (cmds : List Command)
    (st : PlatformState) (h : (initPlatformRest r t cmds).2 = .ok st) :
    cacheColsValid st.inputs = true := by
  by_cases hle : ∀ a ∈ switchAddresses, r.switch_status a ≤ 1
  · rw [initPlatformRest_ok r t cmds hle] at h
    dsimp only at h
    rw [Except.ok.injEq] at h
    subst h
    show cacheColsValid (switchAddresses.map (fun n => (n, r.switch_status n == 1))) = true
    rw [cacheColsValid, List.all_eq_true]
    intro p hp
    rcases List.mem_map.1 hp with ⟨n, hn, hpn⟩
    simp only [decide_eq_true_eq]
    rw [← hpn]
    exact switchAddresses_facts.2.2 n hn
  · push_neg at hle
    obtain ⟨a, ha, hgt⟩ := hle
    obtain ⟨e, he⟩ := initPlatformRest_error r t cmds ⟨a, ha, hgt⟩
    rw [he] at h
    simp at h

/-- A cache produced by a successful handshake has only bulk-read
addresses as keys, hence valid columns. -/
theorem initPlatform_cache_valid (r : DeviceResponses) (st : PlatformState)
    (h : (initPlatform r).2 = .ok st) : cacheColsValid st.inputs = true := by
  unfold initPlatform at h
  split at h
  · simp at h
  · split at h
    · exact initPlatformRest_cache_valid r 1 _ st h
    · split at h
      · exact initPlatformRest_cache_valid r 80 _ st h
      · simp at h

/-- Claim C9 (amended): every address stored by the initial bulk read
decodes to a column in [0,7]; and a poll cycle preserves that
invariant provided the low 7 bits of its status byte decode to a
column in [0,7] (the poll loop itself performs no validation). -/
theorem lisy_C9 :
    (∀ (r : DeviceResponses) (st : PlatformState),
        (initPlatform r).2 = .ok st → cacheColsValid st.inputs = true)
    ∧ (∀ (inputs : List (Nat × Bool)) (status : Nat),
        cacheColsValid inputs = true → (status &&& 127) % 10 ≤ 7 →
        cacheColsValid (poll_cycle inputs status).2 = true) := by
  constructor
  · exact initPlatform_cache_valid
  · intro inputs status h hcol
    unfold poll_cycle
    split
    · exact h
    · exact cacheColsValid_upsert inputs _ _ h hcol

/-- Counterexample to C9 as stated: on the cache left by a bulk read
with all switches open, a poll cycle reading status byte 8 (state 0,
switch number 8) stores address 8, whose column digit is 8, outside
[0,7]. -/
theorem lisy_C9_counterexample :
    cacheColsValid (poll_cycle (switchAddresses.map (fun n => (n, false))) 8).2 = false := by
  decide

/-- Witness for the amended C9: the bulk-read cache of a clean LISY1
device is column-valid, and a poll cycle with status byte 133 (switch
5) preserves column validity. -/
theorem lisy_C9_witness :
    cacheColsValid (switchAddresses.map (fun n => (n, goodLisy1.switch_status n == 1))) = true
    ∧ cacheColsValid (poll_cycle [(5, true)] 133).2 = true :=
  ⟨lisy_C9.1 goodLisy1
      { system_type := 1, number_of_lamps := 5, number_of_solenoids := 3,
        number_of_displays := 2,
        inputs := switchAddresses.map (fun n => (n, goodLisy1.switch_status n == 1)) }
      (by rfl),
   lisy_C9.2 [(5, true)] 133 (by decide) (by decide)⟩

/-- Claim C4 evaluated at failing inputs: the source accepts lamp 0 on a
one-indexed system with 5 lamps even though 0 is outside [1, 5], and
accepts lamp 0 on a zero-indexed System 80 with 0 lamps even though
[0, 0) is empty, instead of raising the ConfigurationError the claim
requires; its chained comparisons `0 < n >= lamps` and `1 < n > lamps`
never fire for n ≤ 0, so negative lamp numbers pass as well. -/
theorem lisy_C4_code_behavior :
    configure_light 1 5 0 = .ok 0 ∧ configure_light 80 0 0 = .ok 0
    ∧ configure_light 80 5 (-2) = .ok (-2) :=
  ⟨rfl, rfl, rfl⟩

/-- Claim C5 evaluated at a failing input: with a reported display count
of 0, the source accepts display index 0 (0 ≥ 0 is out of range, so
the claim requires a ConfigurationError) because its chained
comparison `0 < n >= displays` never fires for n = 0. -/
theorem lisy_C5_code_behavior :
    configure_segment_display 0 0 = .ok 0 :=
  rfl

end LisySpec
